import Mathlib

/-!
Shallow embedding of the ockam secure-channel manager
(`implementations/rust/channel/src/lib.rs`) and the surrounding message
and vault interfaces it consumes.  Arithmetic on machine integers is
modelled with `Nat` and explicit `% 2 ^ w`; fallible operations return
`Except` or are tracked through an explicit outcome field; Rust panics
(`unwrap` on `None`, out-of-bounds indexing, which abort the process)
are modelled as a distinct `panicked` outcome.  `debug_assert!` is a
no-op in release builds and is modelled as a no-op.
-/

namespace Ockam

/-- Modelled from the spec: address categories of the `ockam_message`
crate (`AddressType`), which is not under `src/`; the channel manager
only distinguishes `Channel`, `Worker` and the rest. -/
inductive AddressType
  | Channel
  | Worker
  | Undefined
deriving DecidableEq, Repr

/-- Modelled from the spec: an `ockam_message` `Address` is a
discriminated value over categories carrying an opaque byte
identifier. -/
inductive Address
  | channelAddress (bytes : List Nat)
  | workerAddress (bytes : List Nat)
deriving DecidableEq, Repr

/-- Hex digit character code, lowercase, as in the spec's on-bus
address rendering. -/
def hexDigit (n : Nat) : Nat :=
  if n < 10 then 48 + n else 87 + n

/-- Two lowercase hex character codes for one byte. -/
def byteToHex (b : Nat) : List Nat :=
  [hexDigit (b / 16), hexDigit (b % 16)]

/-- Modelled from the spec: the on-bus string form of an address
payload is its bytes rendered as lowercase hex (`ockam_message` is not
under `src/`).  Strings are modelled as lists of character codes. -/
def bytesToHexKey (bs : List Nat) : List Nat :=
  (bs.map byteToHex).flatten

/-- Modelled from the spec: `Address::as_string` renders the payload
bytes as lowercase hex. -/
def Address.as_string : Address → List Nat
  | .channelAddress bs => bytesToHexKey bs
  | .workerAddress bs => bytesToHexKey bs

/-- The sentinel address string `"00000000"`, i.e. the all-zero 4-byte
id rendered as hex; `bytesToHexKey [0,0,0,0]` is exactly the character
codes of the ASCII string `"00000000"`. -/
def CHANNEL_ZERO : List Nat := bytesToHexKey [0, 0, 0, 0]

/-- Modelled from the spec: an `ockam_message` `RouterAddress` pairs an
address type with an address. -/
structure RouterAddress where
  a_type : AddressType
  address : Address
deriving DecidableEq, Repr

/-- Modelled from the spec: `RouterAddress::from_address` tags the
address with its own category. -/
def RouterAddress.from_address (a : Address) : RouterAddress :=
  match a with
  | .channelAddress bs => ⟨.Channel, .channelAddress bs⟩
  | .workerAddress bs => ⟨.Worker, .workerAddress bs⟩

/-- Modelled from the spec:
`RouterAddress::channel_router_address_from_str` applied to the hex
rendering of `bs` (hex parse after hex render is the identity). -/
def channelRouterAddressFromBytes (bs : List Nat) : RouterAddress :=
  ⟨.Channel, .channelAddress bs⟩

/-- Modelled from the spec:
`RouterAddress::worker_router_address_from_str` applied to the hex
rendering of `bs`. -/
def workerRouterAddressFromBytes (bs : List Nat) : RouterAddress :=
  ⟨.Worker, .workerAddress bs⟩

/-- Modelled from the spec: an `ockam_message` `Route` is an ordered
sequence of router addresses. -/
structure Route where
  addresses : List RouterAddress
deriving DecidableEq, Repr

/-- Modelled from the spec: the message types the channel manager
dispatches on. -/
inductive MessageType
  | None
  | Payload
  | KeyAgreementM1
  | KeyAgreementM2
  | KeyAgreementM3
deriving DecidableEq, Repr

/-- Modelled from the spec: an `ockam_message` `Message`. -/
structure Message where
  onward_route : Route
  return_route : Route
  message_type : MessageType
  message_body : List Nat
deriving DecidableEq, Repr

/-- `CompletedKeyExchange` from `ockam_kex` as described by the spec:
directional key handles into the vault, the transcript hash `h`, and
the remote static public key bytes. -/
structure CompletedKeyExchange where
  encrypt_key : Nat
  decrypt_key : Nat
  h : List Nat
  remote_static_public_key : List Nat
deriving DecidableEq, Repr

/-- The error kinds of `channel::error::ChannelErrorKind`. -/
inductive ChannelErrorKind
  | CantSend
  | RecvError
  | NotImplemented
  | State
  | InvalidParam (n : Nat)
deriving DecidableEq, Repr

/-- Outcome of one handler call: `Ok(())`, `Err(kind)`, or a Rust
panic (process abort). -/
inductive Outcome
  | ok
  | error (e : ChannelErrorKind)
  | panicked
deriving DecidableEq, Repr

/-- Commands the manager hands to the router (`RouterCommand`). -/
inductive RouterCommand
  | SendMessage (m : Message)
  | ReceiveMessage (m : Message)
deriving DecidableEq, Repr

/-- The 4 little-endian bytes of a 32-bit value, as
`u32::to_le_bytes`. -/
def u32le (n : Nat) : List Nat :=
  [n % 256, n / 256 % 256, n / 256 ^ 2 % 256, n / 256 ^ 3 % 256]

/-- Modelled from the spec: the `ockam_message` `Codec` for `u16` uses
a 2-byte little-endian encoding (the crate is not under `src/`). -/
def encodeU16LE (n : Nat) : List Nat :=
  [n % 256, n / 256 % 256]

/-- Modelled from the spec: `u16::decode` splits the first two bytes
as a little-endian 16-bit value and returns the remainder. -/
def decodeU16LE : List Nat → Option (Nat × List Nat)
  | b0 :: b1 :: rest => some (b0 + 256 * b1, rest)
  | _ => none

/-- The `Channel` struct of `channel/src/lib.rs`.  The abstract
`Box<dyn KeyExchanger>` state is modelled as a `Nat` interpreted by
the `KexFns` the handlers are parameterised over. -/
structure Channel where
  completed_key_exchange : Option CompletedKeyExchange
  remote_public_key : Option (List Nat)
  cleartext_address : Nat
  ciphertext_address : Nat
  agreement : Nat
  nonce : Nat
  route : Route
  pending : Option Message
deriving DecidableEq, Repr

/-- `Channel::new`. -/
def Channel.new (cleartext_address ciphertext_address : Nat) (agreement : Nat) : Channel :=
  { cleartext_address
    ciphertext_address
    agreement
    completed_key_exchange := none
    nonce := 0
    route := ⟨[]⟩
    pending := none
    remote_public_key := none }

/-- `Channel::as_cleartext_address`. -/
def Channel.as_cleartext_address (c : Channel) : Address :=
  .channelAddress (u32le c.cleartext_address)

/-- `Channel::as_ciphertext_address`. -/
def Channel.as_ciphertext_address (c : Channel) : Address :=
  .channelAddress (u32le c.ciphertext_address)

/-- `Channel::nonce_16_to_96`: 10 zero bytes followed by the
big-endian bytes of the 16-bit counter. -/
def Channel.nonce_16_to_96 (n16 : Nat) : List Nat :=
  [0, 0, 0, 0, 0, 0, 0, 0, 0, 0, n16 / 256 % 256, n16 % 256]

/-- `Channel::nonce_from_96`: big-endian 16-bit value from bytes 10
and 11. -/
def Channel.nonce_from_96 (n : List Nat) : Nat :=
  (n.getD 10 0) * 256 + n.getD 11 0

/-- The `KeyExchanger` / `NewKeyExchanger` capabilities of `ockam_kex`
as the spec describes them: feed bytes, produce bytes, finalize into
keys; handshake state is abstract (`Nat` here). -/
structure KexFns where
  initiator : Option Nat → Nat
  responder : Option Nat → Nat
  process : Nat → List Nat → Except ChannelErrorKind (Nat × List Nat)
  is_complete : Nat → Bool
  finalize : Nat → Except ChannelErrorKind CompletedKeyExchange

/-- The abstract collaborators the manager consumes: the key-exchange
strategy, the vault's AEAD operations (`DynVault` in
`vault/src/lib.rs`), and the `ockam_message` codec, which the spec
assumes lossless. -/
structure Env where
  kex : KexFns
  aead_aes_gcm_encrypt : Nat → List Nat → List Nat → List Nat → Except ChannelErrorKind (List Nat)
  aead_aes_gcm_decrypt : Nat → List Nat → List Nat → List Nat → Except ChannelErrorKind (List Nat)
  encodeMessage : Message → Option (List Nat)
  decodeMessage : List Nat → Option (Message × Nat)

/-- The manager's channel table (`BTreeMap<String, Arc<Mutex<Channel>>>`)
is modelled as an association list from address strings to instance
ids, plus a store from ids to `Channel` values; two keys holding the
same id model two `Arc` clones of one `Channel` instance. -/
structure ChannelManager where
  channels : List (List Nat × Nat)
  store : List (Nat × Channel)
  next_id : Nat
  resp_key_ctx : Option Nat
  init_key_ctx : Option Nat
deriving DecidableEq, Repr

/-- Map lookup (`BTreeMap::get`). -/
def mapLookup (k : List Nat) : List (List Nat × Nat) → Option Nat
  | [] => none
  | (k2, v) :: rest => if k = k2 then some v else mapLookup k rest

/-- Map insert (`BTreeMap::insert`): replaces an existing binding. -/
def mapInsert (k : List Nat) (v : Nat) : List (List Nat × Nat) → List (List Nat × Nat)
  | [] => [(k, v)]
  | (k2, v2) :: rest =>
    if k = k2 then (k, v) :: rest else (k2, v2) :: mapInsert k v rest

/-- Dereference an `Arc<Mutex<Channel>>` instance id. -/
def storeLookup (id : Nat) : List (Nat × Channel) → Option Channel
  | [] => none
  | (i, c) :: rest => if id = i then some c else storeLookup id rest

/-- Write back through an `Arc<Mutex<Channel>>` instance id. -/
def storeUpdate (id : Nat) (ch : Channel) : List (Nat × Channel) → List (Nat × Channel)
  | [] => []
  | (i, c) :: rest =>
    if id = i then (id, ch) :: rest else (i, c) :: storeUpdate id ch rest

/-- The state, router emissions and outcome of one handler call.  The
source mutates `self` and sends router commands before an error can be
returned, so state and emissions are kept even on `error`. -/
structure StepResult where
  state : ChannelManager
  emitted : List RouterCommand
  outcome : Outcome
deriving DecidableEq, Repr

/-- `ExchangerRole`. -/
inductive ExchangerRole
  | Initiator
  | Responder
deriving DecidableEq, Repr

/-- `ChannelManager::create_channel` (lines 477-499): draw two random
32-bit ids (passed in as `clear_u32`, `cipher_u32`), build the channel
with the role's exchanger, and install it in the table under the
rendered forms of both ids.  Returns the two address byte payloads
(the source returns their hex strings).  The source wraps the result
in `Option` but always returns `Some`. -/
def ChannelManager.create_channel (env : Env) (role : ExchangerRole)
    (clear_u32 cipher_u32 : Nat) (st : ChannelManager) :
    Option (ChannelManager × List Nat × List Nat) :=
  let agreement :=
    match role with
    | .Initiator => env.kex.initiator st.init_key_ctx
    | .Responder => env.kex.responder st.resp_key_ctx
  let ch := Channel.new clear_u32 cipher_u32 agreement
  let id := st.next_id
  let clearBytes := u32le clear_u32
  let cipherBytes := u32le cipher_u32
  let channels1 := mapInsert (bytesToHexKey clearBytes) id st.channels
  let channels2 := mapInsert (bytesToHexKey cipherBytes) id channels1
  some ({ st with
            channels := channels2
            store := (id, ch) :: st.store
            next_id := id + 1 },
        clearBytes, cipherBytes)

/-- `ChannelManager::handle_send` (lines 161-227). -/
def ChannelManager.handle_send (env : Env) (st : ChannelManager) (m : Message) : StepResult :=
  match m.onward_route.addresses with
  | [] => ⟨st, [], .error .CantSend⟩
  | a0 :: rest =>
    match m.message_type with
    | .Payload =>
      let address := a0.address.as_string
      match mapLookup address st.channels with
      | some id =>
        match storeLookup id st.store with
        | none => ⟨st, [], .panicked⟩
        | some channel =>
          if env.kex.is_complete channel.agreement = false then
            ⟨st, [], .ok⟩
          else
            match env.encodeMessage { m with onward_route := ⟨rest⟩ } with
            | none => ⟨st, [], .error .CantSend⟩
            | some m_encoded =>
              match channel.completed_key_exchange with
              | none => ⟨st, [], .panicked⟩
              | some cke =>
                let new_message_body := encodeU16LE channel.nonce
                let nonce := Channel.nonce_16_to_96 channel.nonce
                match env.aead_aes_gcm_encrypt cke.encrypt_key m_encoded nonce cke.h with
                | .error e => ⟨st, [], .error e⟩
                | .ok ciphertext_and_tag =>
                  let channel1 := { channel with nonce := (channel.nonce + 1) % 2 ^ 16 }
                  let new_m : Message :=
                    { onward_route := channel.route
                      return_route := ⟨[RouterAddress.from_address channel.as_ciphertext_address]⟩
                      message_type := .Payload
                      message_body := new_message_body ++ ciphertext_and_tag }
                  ⟨{ st with store := storeUpdate id channel1 st.store },
                   [RouterCommand.SendMessage new_m], .ok⟩
      | none => ⟨st, [], .error .NotImplemented⟩
    | _ => ⟨st, [], .error .NotImplemented⟩

/-- `ChannelManager::handle_payload_recv` (lines 332-358).  The
channel is reached through its `Arc`; `id` is the instance id the
dispatcher resolved.  When `completed_key_exchange` is `None` the
source unwraps it and the process aborts. -/
def ChannelManager.handle_payload_recv (env : Env) (st : ChannelManager)
    (id : Nat) (m : Message) : StepResult :=
  match storeLookup id st.store with
  | none => ⟨st, [], .panicked⟩
  | some channel =>
    if m.message_body.length < 2 then
      ⟨st, [], .error .RecvError⟩
    else
      match channel.completed_key_exchange with
      | none => ⟨st, [], .panicked⟩
      | some kex =>
        match decodeU16LE m.message_body with
        | some (nonce, cipher_text) =>
          let nonce_96 := Channel.nonce_16_to_96 nonce
          match env.aead_aes_gcm_decrypt kex.decrypt_key cipher_text nonce_96 kex.h with
          | .error e => ⟨st, [], .error e⟩
          | .ok new_m_encoded =>
            match env.decodeMessage new_m_encoded with
            | none => ⟨st, [], .panicked⟩
            | some (new_m, _) =>
              let channel1 := { channel with nonce := (channel.nonce + 1) % 2 ^ 16 }
              ⟨{ st with store := storeUpdate id channel1 st.store },
               [RouterCommand.ReceiveMessage new_m], .ok⟩
        | none => ⟨st, [], .error (.InvalidParam 0)⟩

/-- `ChannelManager::handle_m1_recv` (lines 360-378). -/
def ChannelManager.handle_m1_recv (env : Env) (st : ChannelManager)
    (id : Nat) (m : Message) : StepResult :=
  match storeLookup id st.store with
  | none => ⟨st, [], .panicked⟩
  | some channel =>
    match env.kex.process channel.agreement m.message_body with
    | .error e => ⟨st, [], .error e⟩
    | .ok (ag1, _) =>
      match env.kex.process ag1 [] with
      | .error e => ⟨st, [], .error e⟩
      | .ok (ag2, m2) =>
        let channel1 := { channel with agreement := ag2 }
        let reply : Message :=
          { onward_route := m.return_route
            return_route := ⟨[RouterAddress.from_address channel.as_ciphertext_address]⟩
            message_type := .KeyAgreementM2
            message_body := m2 }
        ⟨{ st with store := storeUpdate id channel1 st.store },
         [RouterCommand.SendMessage reply], .ok⟩

/-- `ChannelManager::handle_m2_recv` (lines 380-418): process M2,
produce and send M3, finalize, set `route`, then surface the pending
notification with its body replaced by the remote static public key.
The notification's `return_route` is left untouched and `pending` is
not cleared.  The source indexes `m.onward_route.addresses[0]`, a
panic on an empty route. -/
def ChannelManager.handle_m2_recv (env : Env) (st : ChannelManager)
    (id : Nat) (m : Message) : StepResult :=
  match storeLookup id st.store with
  | none => ⟨st, [], .panicked⟩
  | some channel =>
    let return_route := m.return_route
    match env.kex.process channel.agreement m.message_body with
    | .error e => ⟨st, [], .error e⟩
    | .ok (ag1, _) =>
      match env.kex.process ag1 [] with
      | .error e => ⟨st, [], .error e⟩
      | .ok (ag2, m3) =>
        match m.onward_route.addresses with
        | [] => ⟨st, [], .panicked⟩
        | a0 :: _ =>
          let reply : Message :=
            { onward_route := return_route
              return_route := ⟨[a0]⟩
              message_type := .KeyAgreementM3
              message_body := m3 }
          match env.kex.finalize ag2 with
          | .error e =>
            ⟨{ st with store := storeUpdate id { channel with agreement := ag2 } st.store },
             [RouterCommand.SendMessage reply], .error e⟩
          | .ok cke =>
            let channel1 :=
              { channel with
                  agreement := ag2
                  completed_key_exchange := some cke
                  route := return_route }
            match channel1.pending with
            | some p =>
              let p1 := { p with message_body := cke.remote_static_public_key }
              ⟨{ st with store := storeUpdate id channel1 st.store },
               [RouterCommand.SendMessage reply, RouterCommand.ReceiveMessage p1], .ok⟩
            | none =>
              ⟨{ st with store := storeUpdate id channel1 st.store },
               [RouterCommand.SendMessage reply], .error .NotImplemented⟩

/-- `ChannelManager::handle_m3_recv` (lines 420-475): process M3; if
the channel has no completed keys yet, finalize, set `route`, and
deliver (or synthesize) the worker notification with the cleartext
address inserted at position 0 of its return route; if keys are
already present, only the agreement state advances. -/
def ChannelManager.handle_m3_recv (env : Env) (st : ChannelManager)
    (id : Nat) (m : Message) : StepResult :=
  match storeLookup id st.store with
  | none => ⟨st, [], .panicked⟩
  | some channel =>
    let return_route := m.return_route
    match env.kex.process channel.agreement m.message_body with
    | .error e => ⟨st, [], .error e⟩
    | .ok (ag1, _) =>
      let channel1 := { channel with agreement := ag1 }
      match channel1.completed_key_exchange with
      | some _ =>
        ⟨{ st with store := storeUpdate id channel1 st.store }, [], .ok⟩
      | none =>
        let pending := channel1.pending
        match env.kex.finalize ag1 with
        | .error e =>
          ⟨{ st with store := storeUpdate id channel1 st.store }, [], .error e⟩
        | .ok cke =>
          let channel2 :=
            { channel1 with
                completed_key_exchange := some cke
                route := return_route }
          match pending with
          | some p =>
            let p1 :=
              { p with
                  return_route :=
                    ⟨RouterAddress.from_address channel2.as_cleartext_address ::
                      channel2.route.addresses⟩
                  message_body := cke.remote_static_public_key }
            let channel3 := { channel2 with pending := none }
            ⟨{ st with store := storeUpdate id channel3 st.store },
             [RouterCommand.ReceiveMessage p1], .ok⟩
          | none =>
            let rr : Route :=
              ⟨RouterAddress.from_address channel2.as_cleartext_address ::
                channel2.route.addresses⟩
            let new_m : Message :=
              { onward_route := ⟨[workerRouterAddressFromBytes [0, 0, 0, 0]]⟩
                return_route := rr
                message_type := .None
                message_body := [] }
            ⟨{ st with store := storeUpdate id channel2 st.store },
             [RouterCommand.ReceiveMessage new_m], .ok⟩

/-- `ChannelManager::handle_recv` (lines 280-330): resolve the head of
the onward route (allocating a responder channel for the
`CHANNEL_ZERO` sentinel, consuming the two random ids), dispatch on
message type, and silently drop messages whose address is unknown
(`debug_assert!` is a no-op in release builds). -/
def ChannelManager.handle_recv (env : Env) (clear_u32 cipher_u32 : Nat)
    (st : ChannelManager) (m : Message) : StepResult :=
  match m.onward_route.addresses with
  | [] => ⟨st, [], .error .RecvError⟩
  | a0 :: _ =>
    let cipher_address := a0.address.as_string
    let resolved : Option (ChannelManager × List Nat) :=
      if cipher_address = CHANNEL_ZERO then
        match ChannelManager.create_channel env .Responder clear_u32 cipher_u32 st with
        | some (st1, _, cipherBytes) => some (st1, bytesToHexKey cipherBytes)
        | none => none
      else
        some (st, cipher_address)
    match resolved with
    | none => ⟨st, [], .error .State⟩
    | some (st1, key) =>
      match mapLookup key st1.channels with
      | some id =>
        match m.message_type with
        | .KeyAgreementM1 => ChannelManager.handle_m1_recv env st1 id m
        | .KeyAgreementM2 => ChannelManager.handle_m2_recv env st1 id m
        | .KeyAgreementM3 => ChannelManager.handle_m3_recv env st1 id m
        | .Payload => ChannelManager.handle_payload_recv env st1 id m
        | _ => ⟨st1, [], .error .NotImplemented⟩
      | none => ⟨st1, [], .ok⟩

/-- `ChannelManager::initiate_new_channel` (lines 232-278).  The
`create_channel` call never returns `None`; if it did, the source
would look up the sentinel string and unwrap, so that dead branch is
modelled as a panic. -/
def ChannelManager.initiate_new_channel (env : Env) (clear_u32 cipher_u32 : Nat)
    (st : ChannelManager) (route : Route) (return_address : Address) : StepResult :=
  let pending_return := RouterAddress.from_address return_address
  match ChannelManager.create_channel env .Initiator clear_u32 cipher_u32 st with
  | none => ⟨st, [], .panicked⟩
  | some (st1, clearBytes, cipherBytes) =>
    match mapLookup (bytesToHexKey cipherBytes) st1.channels with
    | none => ⟨st1, [], .panicked⟩
    | some id =>
      match storeLookup id st1.store with
      | none => ⟨st1, [], .panicked⟩
      | some channel =>
        let pendingMsg : Message :=
          { onward_route := ⟨[pending_return]⟩
            return_route := ⟨[channelRouterAddressFromBytes clearBytes]⟩
            message_type := .None
            message_body := [] }
        let channel1 := { channel with pending := some pendingMsg }
        match env.kex.process channel1.agreement [] with
        | .error e =>
          ⟨{ st1 with store := storeUpdate id channel1 st1.store }, [], .error e⟩
        | .ok (ag1, ka_m1) =>
          let channel2 := { channel1 with agreement := ag1 }
          let route1 : Route :=
            ⟨route.addresses ++ [channelRouterAddressFromBytes [0, 0, 0, 0]]⟩
          let m : Message :=
            { onward_route := route1
              return_route := ⟨[channelRouterAddressFromBytes cipherBytes]⟩
              message_type := .KeyAgreementM1
              message_body := ka_m1 }
          ⟨{ st1 with store := storeUpdate id channel2 st1.store },
           [RouterCommand.SendMessage m], .ok⟩

/-- `ChannelCommand`. -/
inductive ChannelCommand
  | Initiate (route : Route) (return_address : Address) (key : Option Nat)
  | Stop
  | SendMessage (m : Message)
  | ReceiveMessage (m : Message)
deriving DecidableEq, Repr

/-- `OckamCommand` as seen on the manager's queue: a channel command
or any other variant (rejected with `InvalidParam(0)`). -/
inductive OckamCommand
  | Channel (c : ChannelCommand)
  | Other
deriving DecidableEq, Repr

/-- One iteration of the `poll` drain loop (lines 126-156) on a single
command.  The `Initiate` arm indexes `route.addresses[0]` before any
emptiness check, which panics on an empty route. -/
def ChannelManager.processCommand (env : Env) (clear_u32 cipher_u32 : Nat)
    (st : ChannelManager) (c : OckamCommand) : StepResult :=
  match c with
  | .Channel (.Initiate route return_address key) =>
    match route.addresses with
    | [] => ⟨st, [], .panicked⟩
    | a0 :: rest =>
      let route1 : Route :=
        match a0.a_type with
        | .Channel =>
          if a0.address.as_string = CHANNEL_ZERO then ⟨rest⟩ else route
        | _ => route
      let st1 := { st with init_key_ctx := key }
      ChannelManager.initiate_new_channel env clear_u32 cipher_u32 st1 route1 return_address
  | .Channel .Stop => ⟨{ st with channels := [] }, [], .ok⟩
  | .Channel (.SendMessage m) => ChannelManager.handle_send env st m
  | .Channel (.ReceiveMessage m) => ChannelManager.handle_recv env clear_u32 cipher_u32 st m
  | .Other => ⟨st, [], .error (.InvalidParam 0)⟩

/-- `ChannelManager::poll` (lines 122-159) over the queued commands,
with the random ids each command may consume supplied as a list of
pairs.  `Stop` clears the table and breaks; errors short-circuit the
drain; a panic aborts. -/
def ChannelManager.poll (env : Env) : List (Nat × Nat) → ChannelManager →
    List OckamCommand → StepResult
  | _, st, [] => ⟨st, [], .ok⟩
  | rng, st, c :: cs =>
    match c with
    | .Channel .Stop => ⟨{ st with channels := [] }, [], .ok⟩
    | _ =>
      let p := rng.headD (0, 0)
      let r := ChannelManager.processCommand env p.1 p.2 st c
      match r.outcome with
      | .ok =>
        let r2 := ChannelManager.poll env rng.tail r.state cs
        ⟨r2.state, r.emitted ++ r2.emitted, r2.outcome⟩
      | _ => r

/-! ## Helper lemmas on the table and store -/

theorem mapLookup_mapInsert_self (k : List Nat) (v : Nat) (m : List (List Nat × Nat)) :
    mapLookup k (mapInsert k v m) = some v := by
  induction m with
  | nil => simp [mapLookup, mapInsert]
  | cons hd tl ih =>
    obtain ⟨k2, v2⟩ := hd
    by_cases hk : k = k2
    · subst hk
      simp [mapLookup, mapInsert]
    · simp [mapLookup, mapInsert, hk, ih]

theorem mapLookup_mapInsert_ne (k k2 : List Nat) (v : Nat) (m : List (List Nat × Nat))
    (h : k ≠ k2) : mapLookup k (mapInsert k2 v m) = mapLookup k m := by
  induction m with
  | nil => simp [mapLookup, mapInsert, h]
  | cons hd tl ih =>
    obtain ⟨k3, v3⟩ := hd
    by_cases hk : k2 = k3
    · subst hk
      simp [mapLookup, mapInsert, h]
    · by_cases hk2 : k = k3
      · subst hk2
        simp [mapLookup, mapInsert, hk]
      · simp [mapLookup, mapInsert, hk, hk2, ih]

theorem storeLookup_storeUpdate_self (id : Nat) (ch1 : Channel) (s : List (Nat × Channel))
    (h : (storeLookup id s).isSome) :
    storeLookup id (storeUpdate id ch1 s) = some ch1 := by
  induction s with
  | nil => simp [storeLookup] at h
  | cons hd tl ih =>
    obtain ⟨i, c⟩ := hd
    by_cases hi : id = i
    · subst hi
      simp [storeLookup, storeUpdate]
    · simp only [storeLookup, storeUpdate, if_neg hi] at h ⊢
      exact ih h

theorem hexDigit_inj (a b : Nat) (ha : a < 16) (hb : b < 16)
    (h : hexDigit a = hexDigit b) : a = b := by
  unfold hexDigit at h
  split at h <;> split at h <;> omega

theorem u32le_hexKey_inj (a b : Nat) (ha : a < 2 ^ 32) (hb : b < 2 ^ 32)
    (h : bytesToHexKey (u32le a) = bytesToHexKey (u32le b)) : a = b := by
  simp only [bytesToHexKey, u32le, byteToHex, List.map, List.flatten, List.append_nil,
    List.cons_append, List.nil_append, List.cons.injEq, and_true] at h
  obtain ⟨h1, h2, h3, h4, h5, h6, h7, h8⟩ := h
  have e1 := hexDigit_inj _ _ (by omega) (by omega) h1
  have e2 := hexDigit_inj _ _ (by omega) (by omega) h2
  have e3 := hexDigit_inj _ _ (by omega) (by omega) h3
  have e4 := hexDigit_inj _ _ (by omega) (by omega) h4
  have e5 := hexDigit_inj _ _ (by omega) (by omega) h5
  have e6 := hexDigit_inj _ _ (by omega) (by omega) h6
  have e7 := hexDigit_inj _ _ (by omega) (by omega) h7
  have e8 := hexDigit_inj _ _ (by omega) (by omega) h8
  omega

/-! ## Concrete objects shared by witnesses and counterexamples -/

/-- A concrete instantiation of the abstract collaborators: the
handshake state counts `process` calls and is complete from state 2
on; AEAD appends a marker byte; the message codec carries the body. -/
def envW : Env :=
  { kex :=
      { initiator := fun _ => 0
        responder := fun _ => 0
        process := fun s _ => .ok (s + 1, [s, 42])
        is_complete := fun s => decide (2 ≤ s)
        finalize := fun _ => .ok ⟨1, 2, [5, 5], [9, 9]⟩ }
    aead_aes_gcm_encrypt := fun _ pt _ _ => .ok (pt ++ [7])
    aead_aes_gcm_decrypt := fun _ ct _ _ => .ok (ct ++ [8])
    encodeMessage := fun m => some m.message_body
    decodeMessage := fun bs => some (⟨⟨[]⟩, ⟨[]⟩, .Payload, bs⟩, bs.length) }

/-- A channel before handshake completion, cleartext id 1, ciphertext
id 2, instance id 0. -/
def chW : Channel := Channel.new 1 2 0

/-- A manager owning `chW` under both its rendered addresses. -/
def stW : ChannelManager :=
  { channels := [(bytesToHexKey (u32le 1), 0), (bytesToHexKey (u32le 2), 0)]
    store := [(0, chW)]
    next_id := 1
    resp_key_ctx := none
    init_key_ctx := none }

/-- The completed key exchange `envW.kex.finalize` yields. -/
def ckeW : CompletedKeyExchange := ⟨1, 2, [5, 5], [9, 9]⟩

/-- `chW` after a completed handshake (strategy state 5 is complete). -/
def chDone : Channel := { chW with completed_key_exchange := some ckeW, agreement := 5 }

/-- A manager owning `chDone`. -/
def stDone : ChannelManager := { stW with store := [(0, chDone)] }

/-! ## C7: nonce expansion -/

/-- Claim C7: for every 16-bit `n`, `nonce_16_to_96 n` is ten zero
bytes followed by the big-endian bytes of `n`, and `nonce_from_96`
inverts it. -/
theorem nonce_expansion_roundtrip (n : Nat) (h : n < 2 ^ 16) :
    Channel.nonce_16_to_96 n = [0, 0, 0, 0, 0, 0, 0, 0, 0, 0, n / 256, n % 256] ∧
    Channel.nonce_from_96 (Channel.nonce_16_to_96 n) = n := by
  constructor
  · simp only [Channel.nonce_16_to_96, List.cons.injEq, and_true, true_and]
    omega
  · simp only [Channel.nonce_from_96, Channel.nonce_16_to_96, List.getD, List.get?,
      Option.getD_some]
    omega

/-- Claim C7 witness: at `n = 0x0102` the expansion is ten zero bytes
followed by `01 02`, and the round trip returns `0x0102`. -/
theorem nonce_expansion_roundtrip_witness :
    Channel.nonce_16_to_96 258 = [0, 0, 0, 0, 0, 0, 0, 0, 0, 0, 1, 2] ∧
    Channel.nonce_from_96 (Channel.nonce_16_to_96 258) = 258 :=
  nonce_expansion_roundtrip 258 (by decide)

/-! ## C10: Initiate with an empty route panics -/

/-- Claim C10: the `Initiate` arm of `poll` indexes
`route.addresses[0]` before any emptiness check, so an `Initiate`
command with an empty address list aborts with a panic instead of
returning an error. -/
theorem initiate_empty_route_panics (env : Env) (cl ci : Nat) (st : ChannelManager)
    (ra : Address) (key : Option Nat) (rng : List (Nat × Nat)) :
    ChannelManager.processCommand env cl ci st (.Channel (.Initiate ⟨[]⟩ ra key)) =
      ⟨st, [], .panicked⟩ ∧
    ChannelManager.poll env rng st [.Channel (.Initiate ⟨[]⟩ ra key)] =
      ⟨st, [], .panicked⟩ := by
  constructor <;> rfl

/-! ## C9: unknown inbound address is a silent drop -/

/-- Claim C9: an inbound message whose non-empty onward-route head is
neither `CHANNEL_ZERO` nor a known channel address is dropped
silently: `handle_recv` returns `Ok`, emits nothing, and changes no
state. -/
theorem handle_recv_unknown_drop (env : Env) (cl ci : Nat) (st : ChannelManager)
    (m : Message) (a0 : RouterAddress) (rest : List RouterAddress)
    (hroute : m.onward_route.addresses = a0 :: rest)
    (hnz : a0.address.as_string ≠ CHANNEL_ZERO)
    (hlkp : mapLookup a0.address.as_string st.channels = none) :
    ChannelManager.handle_recv env cl ci st m = ⟨st, [], .ok⟩ := by
  unfold ChannelManager.handle_recv
  rw [hroute]
  simp [hnz, hlkp]

/-- Claim C9 witness: a payload addressed to the unregistered id 77 is
dropped with `Ok` and no emission. -/
theorem handle_recv_unknown_drop_witness :
    ChannelManager.handle_recv envW 5 6 stW
      ⟨⟨[⟨.Channel, .channelAddress (u32le 77)⟩]⟩, ⟨[]⟩, .Payload, [0, 0]⟩ =
      ⟨stW, [], .ok⟩ :=
  handle_recv_unknown_drop envW 5 6 stW
    ⟨⟨[⟨.Channel, .channelAddress (u32le 77)⟩]⟩, ⟨[]⟩, .Payload, [0, 0]⟩
    ⟨.Channel, .channelAddress (u32le 77)⟩ [] rfl (by decide) (by decide)

/-! ## C1: payload before handshake completion -/

/-- Claim C1 (amended): with an incomplete handshake, the send path is
a silent no-op; but the receive path for a channel whose
`completed_key_exchange` is `None` is not: it returns `RecvError` for
bodies shorter than 2 bytes and panics (unwrap of `None`) otherwise. -/
theorem payload_before_handshake (env : Env) (st : ChannelManager) (m : Message)
    (a0 : RouterAddress) (rest : List RouterAddress) (id : Nat) (ch : Channel)
    (hroute : m.onward_route.addresses = a0 :: rest)
    (htype : m.message_type = .Payload)
    (hlkp : mapLookup a0.address.as_string st.channels = some id)
    (hstore : storeLookup id st.store = some ch)
    (hincomplete : env.kex.is_complete ch.agreement = false)
    (hcke : ch.completed_key_exchange = none)
    (m2 m3 : Message)
    (hlen2 : 2 ≤ m2.message_body.length)
    (hlen3 : m3.message_body.length < 2) :
    ChannelManager.handle_send env st m = ⟨st, [], .ok⟩ ∧
    ChannelManager.handle_payload_recv env st id m2 = ⟨st, [], .panicked⟩ ∧
    ChannelManager.handle_payload_recv env st id m3 = ⟨st, [], .error .RecvError⟩ := by
  refine ⟨?_, ?_, ?_⟩
  · unfold ChannelManager.handle_send
    rw [hroute]
    simp [htype, hlkp, hstore, hincomplete]
  · unfold ChannelManager.handle_payload_recv
    rw [hstore]
    simp [Nat.not_lt.mpr hlen2, hcke]
  · unfold ChannelManager.handle_payload_recv
    rw [hstore]
    simp [hlen3]

/-- Claim C1 witness: on the incomplete channel `chW`, sending a
payload is a silent `Ok`, receiving one with a 2-byte body panics, and
receiving one with an empty body yields `RecvError`. -/
theorem payload_before_handshake_witness :
    ChannelManager.handle_send envW stW
      ⟨⟨[⟨.Channel, .channelAddress (u32le 2)⟩]⟩, ⟨[]⟩, .Payload, [1, 2, 3]⟩ =
      ⟨stW, [], .ok⟩ ∧
    ChannelManager.handle_payload_recv envW stW 0
      ⟨⟨[⟨.Channel, .channelAddress (u32le 2)⟩]⟩, ⟨[]⟩, .Payload, [0, 0]⟩ =
      ⟨stW, [], .panicked⟩ ∧
    ChannelManager.handle_payload_recv envW stW 0
      ⟨⟨[⟨.Channel, .channelAddress (u32le 2)⟩]⟩, ⟨[]⟩, .Payload, []⟩ =
      ⟨stW, [], .error .RecvError⟩ :=
  payload_before_handshake envW stW
    ⟨⟨[⟨.Channel, .channelAddress (u32le 2)⟩]⟩, ⟨[]⟩, .Payload, [1, 2, 3]⟩
    ⟨.Channel, .channelAddress (u32le 2)⟩ [] 0 chW rfl rfl (by decide) (by decide)
    (by decide) (by decide)
    ⟨⟨[⟨.Channel, .channelAddress (u32le 2)⟩]⟩, ⟨[]⟩, .Payload, [0, 0]⟩
    ⟨⟨[⟨.Channel, .channelAddress (u32le 2)⟩]⟩, ⟨[]⟩, .Payload, []⟩
    (by decide) (by decide)

/-- Claim C1 counterexample: through the `ReceiveMessage` dispatch
itself, a payload with a 2-byte body addressed to the known channel
`chW`, whose `completed_key_exchange` is `None`, panics instead of
being silently dropped with `Ok`. -/
theorem payload_before_handshake_counterexample :
    chW.completed_key_exchange = none ∧
    ChannelManager.handle_recv envW 5 6 stW
      ⟨⟨[⟨.Channel, .channelAddress (u32le 2)⟩]⟩, ⟨[]⟩, .Payload, [0, 0]⟩ =
      ⟨stW, [], .panicked⟩ := by
  constructor <;> rfl

/-! ## C2: pending delivery on M2 receipt -/

/-- Claim C2 (amended): when the handshake finalizes on receipt of M2,
the pending notification is delivered to the router as a
`ReceiveMessage` whose `message_body` is the remote static public key
bytes, but whose `return_route` is left exactly as stored at Initiate
time (the cleartext address alone, with no rewriting against
`channel.route`), and the `pending` slot is not cleared. -/
theorem m2_recv_pending_delivery (env : Env) (st : ChannelManager) (id : Nat)
    (ch : Channel) (m p : Message) (a0 : RouterAddress) (rest : List RouterAddress)
    (ag1 ag2 : Nat) (o1 m3b : List Nat) (cke : CompletedKeyExchange)
    (hstore : storeLookup id st.store = some ch)
    (hpend : ch.pending = some p)
    (hroute : m.onward_route.addresses = a0 :: rest)
    (hp1 : env.kex.process ch.agreement m.message_body = .ok (ag1, o1))
    (hp2 : env.kex.process ag1 [] = .ok (ag2, m3b))
    (hfin : env.kex.finalize ag2 = .ok cke) :
    ChannelManager.handle_m2_recv env st id m =
      ⟨{ st with
          store :=
            storeUpdate id
              { ch with
                  agreement := ag2
                  completed_key_exchange := some cke
                  route := m.return_route }
              st.store },
       [RouterCommand.SendMessage ⟨m.return_route, ⟨[a0]⟩, .KeyAgreementM3, m3b⟩,
        RouterCommand.ReceiveMessage { p with message_body := cke.remote_static_public_key }],
       .ok⟩ := by
  unfold ChannelManager.handle_m2_recv
  rw [hstore]
  rw [hroute]
  simp [hp1, hp2, hfin, hpend]

/-- The pending notification stored at Initiate time in the concrete
initiator channel: onward route to the local worker, return route the
channel's cleartext address. -/
def pendM2 : Message :=
  ⟨⟨[⟨.Worker, .workerAddress [3]⟩]⟩, ⟨[channelRouterAddressFromBytes (u32le 1)]⟩, .None, []⟩

/-- An initiator-side channel: `chW` holding `pendM2`. -/
def chM2 : Channel := { chW with pending := some pendM2 }

/-- Manager owning `chM2`. -/
def stM2 : ChannelManager := { stW with store := [(0, chM2)] }

/-- The concrete M2 message received from the peer. -/
def msgM2 : Message :=
  ⟨⟨[⟨.Channel, .channelAddress (u32le 2)⟩]⟩,
   ⟨[⟨.Channel, .channelAddress (u32le 200)⟩]⟩, .KeyAgreementM2, [10, 11]⟩

/-- Claim C2 witness: on `chM2`, M2 receipt delivers the pending
notification with the remote static public key as body and the
Initiate-time return route, while the channel takes the new keys and
the M2's return route. -/
theorem m2_recv_pending_delivery_witness :
    ChannelManager.handle_m2_recv envW stM2 0 msgM2 =
      ⟨{ stM2 with
          store :=
            storeUpdate 0
              { chM2 with
                  agreement := 2
                  completed_key_exchange := some ckeW
                  route := msgM2.return_route }
              stM2.store },
       [RouterCommand.SendMessage
          ⟨msgM2.return_route, ⟨[⟨.Channel, .channelAddress (u32le 2)⟩]⟩,
           .KeyAgreementM3, [1, 42]⟩,
        RouterCommand.ReceiveMessage { pendM2 with message_body := ckeW.remote_static_public_key }],
       .ok⟩ :=
  m2_recv_pending_delivery envW stM2 0 chM2 msgM2 pendM2
    ⟨.Channel, .channelAddress (u32le 2)⟩ [] 1 2 [0, 42] [1, 42] ckeW
    rfl rfl rfl rfl rfl rfl

/-- Claim C2 counterexample: the notification actually delivered on M2
receipt keeps its Initiate-time return route, which differs from
`channel.route` with the cleartext address inserted at position 0 (the
value the claim asserts), and the pending slot is still occupied
afterwards. -/
theorem m2_recv_counterexample :
    (ChannelManager.handle_m2_recv envW stM2 0 msgM2).emitted =
      [RouterCommand.SendMessage
         ⟨⟨[⟨.Channel, .channelAddress (u32le 200)⟩]⟩,
          ⟨[⟨.Channel, .channelAddress (u32le 2)⟩]⟩, .KeyAgreementM3, [1, 42]⟩,
       RouterCommand.ReceiveMessage
         ⟨⟨[⟨.Worker, .workerAddress [3]⟩]⟩,
          ⟨[channelRouterAddressFromBytes (u32le 1)]⟩, .None, [9, 9]⟩] ∧
    (⟨[channelRouterAddressFromBytes (u32le 1)]⟩ : Route) ≠
      ⟨RouterAddress.from_address chM2.as_cleartext_address :: msgM2.return_route.addresses⟩ ∧
    storeLookup 0 (ChannelManager.handle_m2_recv envW stM2 0 msgM2).state.store =
      some { chM2 with
               agreement := 2
               completed_key_exchange := some ckeW
               route := msgM2.return_route } ∧
    ({ chM2 with
         agreement := 2
         completed_key_exchange := some ckeW
         route := msgM2.return_route } : Channel).pending ≠ none := by
  refine ⟨rfl, by decide, rfl, by decide⟩

/-! ## C5: handshake messages after completion -/

/-- Claim C5 (amended): even after `completed_key_exchange` is `Some`,
an M1, M2 or M3 is still fed to the handshake strategy; rejection
relies on the strategy erroring.  For M3 the guard in the handler
preserves the completed keys, route and pending slot when the strategy
accepts (only the opaque agreement state advances); for M2 a strategy
that accepts leads to the keys and route being overwritten. -/
theorem m3_recv_completed_guard (env : Env) (st : ChannelManager) (id : Nat)
    (ch : Channel) (m : Message) (k : CompletedKeyExchange) (ag1 : Nat) (o1 : List Nat)
    (hstore : storeLookup id st.store = some ch)
    (hcke : ch.completed_key_exchange = some k)
    (hp : env.kex.process ch.agreement m.message_body = .ok (ag1, o1)) :
    ChannelManager.handle_m3_recv env st id m =
      ⟨{ st with store := storeUpdate id { ch with agreement := ag1 } st.store },
       [], .ok⟩ := by
  unfold ChannelManager.handle_m3_recv
  rw [hstore]
  simp [hp, hcke]

/-- The completed channel the C5 theorems run against: keys
`⟨100, 200, [1], [2]⟩` already in place, agreement state 10. -/
def chC5 : Channel :=
  { chW with completed_key_exchange := some ⟨100, 200, [1], [2]⟩, agreement := 10 }

/-- Manager owning `chC5`. -/
def stC5 : ChannelManager := { stW with store := [(0, chC5)] }

/-- A concrete M3 message addressed to the completed channel. -/
def msgM3 : Message :=
  ⟨⟨[⟨.Channel, .channelAddress (u32le 2)⟩]⟩,
   ⟨[⟨.Channel, .channelAddress (u32le 200)⟩]⟩, .KeyAgreementM3, [10, 11]⟩

/-- Claim C5 witness: an M3 on the completed channel `chC5` only
advances the agreement state; keys, route and pending are unchanged. -/
theorem m3_recv_completed_guard_witness :
    ChannelManager.handle_m3_recv envW stC5 0 msgM3 =
      ⟨{ stC5 with store := storeUpdate 0 { chC5 with agreement := 11 } stC5.store },
       [], .ok⟩ :=
  m3_recv_completed_guard envW stC5 0 chC5 msgM3
    ⟨100, 200, [1], [2]⟩ 11 [10, 42] rfl rfl rfl

/-- Claim C5 counterexample: on the completed channel `chC5`, an M1 is
processed by the strategy (the agreement state advances and an M2
reply goes out), and an M2 whose strategy calls succeed overwrites the
completed keys and the route — so handshake messages directed at a
channel with completed keys are not rejected and do alter its
completed keys. -/
theorem handshake_after_complete_counterexample :
    storeLookup 0 (ChannelManager.handle_m1_recv envW stC5 0 msgM2).state.store =
      some { chC5 with agreement := 12 } ∧
    (ChannelManager.handle_m1_recv envW stC5 0 msgM2).emitted ≠ [] ∧
    storeLookup 0 (ChannelManager.handle_m2_recv envW stC5 0 msgM2).state.store =
      some { chC5 with
               agreement := 12
               completed_key_exchange := some ckeW
               route := msgM2.return_route } ∧
    (some ckeW : Option CompletedKeyExchange) ≠ some ⟨100, 200, [1], [2]⟩ := by
  refine ⟨rfl, by decide, rfl, by decide⟩



/-! ## C6: payload send wire format -/

/-- Claim C6: a payload send through a known, completed channel emits
exactly one router `SendMessage` whose onward route is the stored
`channel.route`, whose return route is the channel's ciphertext
address alone, whose type is `Payload`, and whose body is the 2-byte
little-endian current nonce followed by the AEAD ciphertext-and-tag of
the encoded input message with its head address removed, under
`encrypt_key`, the 96-bit expanded nonce, and AAD `h`. -/
theorem handle_send_payload_format (env : Env) (st : ChannelManager)
    (a0 : RouterAddress) (rest : List RouterAddress) (rr : Route) (body : List Nat)
    (id : Nat) (ch : Channel) (k : CompletedKeyExchange) (enc ct : List Nat)
    (hlkp : mapLookup a0.address.as_string st.channels = some id)
    (hstore : storeLookup id st.store = some ch)
    (hcomp : env.kex.is_complete ch.agreement = true)
    (hcke : ch.completed_key_exchange = some k)
    (henc : env.encodeMessage ⟨⟨rest⟩, rr, .Payload, body⟩ = some enc)
    (haead : env.aead_aes_gcm_encrypt k.encrypt_key enc
        (Channel.nonce_16_to_96 ch.nonce) k.h = .ok ct) :
    ChannelManager.handle_send env st ⟨⟨a0 :: rest⟩, rr, .Payload, body⟩ =
      ⟨{ st with
          store := storeUpdate id { ch with nonce := (ch.nonce + 1) % 2 ^ 16 } st.store },
       [RouterCommand.SendMessage
          ⟨ch.route, ⟨[RouterAddress.from_address ch.as_ciphertext_address]⟩, .Payload,
           encodeU16LE ch.nonce ++ ct⟩],
       .ok⟩ := by
  unfold ChannelManager.handle_send
  rw [show (⟨⟨a0 :: rest⟩, rr, .Payload, body⟩ : Message).onward_route.addresses
        = a0 :: rest from rfl]
  simp [hlkp, hstore, hcomp, hcke, henc, haead]

/-- The concrete payload message the send-path witnesses use,
addressed to the ciphertext address of `chDone`. -/
def msgSend : Message :=
  ⟨⟨[⟨.Channel, .channelAddress (u32le 2)⟩]⟩, ⟨[]⟩, .Payload, [1, 2, 3]⟩

/-- Claim C6 witness: the concrete send through `chDone` emits the
message with onward route `chDone.route`, ciphertext return route,
`Payload` type, and body `le16(0) ++ aead(...)`. -/
theorem handle_send_payload_format_witness :
    ChannelManager.handle_send envW stDone msgSend =
      ⟨{ stDone with
          store := storeUpdate 0 { chDone with nonce := (chDone.nonce + 1) % 2 ^ 16 } stDone.store },
       [RouterCommand.SendMessage
          ⟨chDone.route, ⟨[RouterAddress.from_address chDone.as_ciphertext_address]⟩, .Payload,
           encodeU16LE chDone.nonce ++ [1, 2, 3, 7]⟩],
       .ok⟩ :=
  handle_send_payload_format envW stDone
    ⟨.Channel, .channelAddress (u32le 2)⟩ [] ⟨[]⟩ [1, 2, 3] 0 chDone ckeW
    [1, 2, 3] [1, 2, 3, 7] rfl rfl rfl rfl rfl rfl

/-! ## C3: single shared nonce counter -/

/-- Claim C3: the nonce counter starts at 0 at channel creation, and a
successful AEAD encrypt on the send path and a successful AEAD decrypt
on the receive path both advance the same single per-channel 16-bit
`nonce` field by one (there is no per-direction counter: the resulting
channel differs from the original in the one shared `nonce` field
only). -/
theorem nonce_single_shared_counter (env : Env) (st : ChannelManager)
    (a0 : RouterAddress) (rest : List RouterAddress) (rr : Route) (body : List Nat)
    (id : Nat) (ch : Channel) (k : CompletedKeyExchange) (enc ct : List Nat)
    (x y g : Nat) (m2 : Message) (nn : Nat) (cc ptxt : List Nat) (nm : Message) (cnt : Nat)
    (hlkp : mapLookup a0.address.as_string st.channels = some id)
    (hstore : storeLookup id st.store = some ch)
    (hcomp : env.kex.is_complete ch.agreement = true)
    (hcke : ch.completed_key_exchange = some k)
    (henc : env.encodeMessage ⟨⟨rest⟩, rr, .Payload, body⟩ = some enc)
    (haead : env.aead_aes_gcm_encrypt k.encrypt_key enc
        (Channel.nonce_16_to_96 ch.nonce) k.h = .ok ct)
    (hlen : 2 ≤ m2.message_body.length)
    (hdec : decodeU16LE m2.message_body = some (nn, cc))
    (hdecr : env.aead_aes_gcm_decrypt k.decrypt_key cc
        (Channel.nonce_16_to_96 nn) k.h = .ok ptxt)
    (hdm : env.decodeMessage ptxt = some (nm, cnt)) :
    (Channel.new x y g).nonce = 0 ∧
    storeLookup id
        (ChannelManager.handle_send env st ⟨⟨a0 :: rest⟩, rr, .Payload, body⟩).state.store =
      some { ch with nonce := (ch.nonce + 1) % 2 ^ 16 } ∧
    (ChannelManager.handle_send env st ⟨⟨a0 :: rest⟩, rr, .Payload, body⟩).outcome = .ok ∧
    storeLookup id (ChannelManager.handle_payload_recv env st id m2).state.store =
      some { ch with nonce := (ch.nonce + 1) % 2 ^ 16 } ∧
    (ChannelManager.handle_payload_recv env st id m2).outcome = .ok := by
  have hsend : ChannelManager.handle_send env st ⟨⟨a0 :: rest⟩, rr, .Payload, body⟩ =
      ⟨{ st with
          store := storeUpdate id { ch with nonce := (ch.nonce + 1) % 2 ^ 16 } st.store },
       [RouterCommand.SendMessage
          ⟨ch.route, ⟨[RouterAddress.from_address ch.as_ciphertext_address]⟩, .Payload,
           encodeU16LE ch.nonce ++ ct⟩],
       .ok⟩ := by
    unfold ChannelManager.handle_send
    rw [show (⟨⟨a0 :: rest⟩, rr, .Payload, body⟩ : Message).onward_route.addresses
          = a0 :: rest from rfl]
    simp [hlkp, hstore, hcomp, hcke, henc, haead]
  have hrecv : ChannelManager.handle_payload_recv env st id m2 =
      ⟨{ st with
          store := storeUpdate id { ch with nonce := (ch.nonce + 1) % 2 ^ 16 } st.store },
       [RouterCommand.ReceiveMessage nm], .ok⟩ := by
    unfold ChannelManager.handle_payload_recv
    rw [hstore]
    simp [Nat.not_lt.mpr hlen, hcke, hdec, hdecr, hdm]
  have hup : storeLookup id
      (storeUpdate id { ch with nonce := (ch.nonce + 1) % 2 ^ 16 } st.store) =
      some { ch with nonce := (ch.nonce + 1) % 2 ^ 16 } :=
    storeLookup_storeUpdate_self _ _ _ (by rw [hstore]; rfl)
  refine ⟨rfl, ?_, ?_, ?_, ?_⟩
  · rw [hsend]; exact hup
  · rw [hsend]
  · rw [hrecv]; exact hup
  · rw [hrecv]

/-- Claim C3 witness: on the concrete completed channel `chDone`
(created with nonce 0), a successful send and a successful receive
each produce the channel with nonce 1 and only the nonce changed. -/
theorem nonce_single_shared_counter_witness :
    (Channel.new 1 2 0).nonce = 0 ∧
    storeLookup 0 (ChannelManager.handle_send envW stDone msgSend).state.store =
      some { chDone with nonce := (chDone.nonce + 1) % 2 ^ 16 } ∧
    (ChannelManager.handle_send envW stDone msgSend).outcome = .ok ∧
    storeLookup 0 (ChannelManager.handle_payload_recv envW stDone 0
        ⟨⟨[⟨.Channel, .channelAddress (u32le 2)⟩]⟩, ⟨[]⟩, .Payload, [0, 0, 77]⟩).state.store =
      some { chDone with nonce := (chDone.nonce + 1) % 2 ^ 16 } ∧
    (ChannelManager.handle_payload_recv envW stDone 0
        ⟨⟨[⟨.Channel, .channelAddress (u32le 2)⟩]⟩, ⟨[]⟩, .Payload, [0, 0, 77]⟩).outcome = .ok :=
  nonce_single_shared_counter envW stDone
    ⟨.Channel, .channelAddress (u32le 2)⟩ [] ⟨[]⟩ [1, 2, 3] 0 chDone ckeW
    [1, 2, 3] [1, 2, 3, 7] 1 2 0
    ⟨⟨[⟨.Channel, .channelAddress (u32le 2)⟩]⟩, ⟨[]⟩, .Payload, [0, 0, 77]⟩
    0 [77] [77, 8] ⟨⟨[]⟩, ⟨[]⟩, .Payload, [77, 8]⟩ 2
    rfl rfl rfl rfl rfl rfl (by decide) rfl rfl rfl

/-! ## C4: nonce overflow -/

/-- Claim C4 (amended): when the 16-bit counter stands at `2^16 - 1`
and a further successful AEAD operation occurs, no channel error is
raised: the increment is unconditional 16-bit arithmetic and the
counter wraps back to 0 (release semantics; a debug build would abort
on the arithmetic overflow). -/
theorem nonce_overflow_wraps (env : Env) (st : ChannelManager)
    (a0 : RouterAddress) (rest : List RouterAddress) (rr : Route) (body : List Nat)
    (id : Nat) (ch : Channel) (k : CompletedKeyExchange) (enc ct : List Nat)
    (hlkp : mapLookup a0.address.as_string st.channels = some id)
    (hstore : storeLookup id st.store = some ch)
    (hcomp : env.kex.is_complete ch.agreement = true)
    (hcke : ch.completed_key_exchange = some k)
    (henc : env.encodeMessage ⟨⟨rest⟩, rr, .Payload, body⟩ = some enc)
    (haead : env.aead_aes_gcm_encrypt k.encrypt_key enc
        (Channel.nonce_16_to_96 ch.nonce) k.h = .ok ct)
    (hmax : ch.nonce = 2 ^ 16 - 1) :
    (ChannelManager.handle_send env st ⟨⟨a0 :: rest⟩, rr, .Payload, body⟩).outcome = .ok ∧
    storeLookup id
        (ChannelManager.handle_send env st ⟨⟨a0 :: rest⟩, rr, .Payload, body⟩).state.store =
      some { ch with nonce := 0 } := by
  have hsend : ChannelManager.handle_send env st ⟨⟨a0 :: rest⟩, rr, .Payload, body⟩ =
      ⟨{ st with
          store := storeUpdate id { ch with nonce := (ch.nonce + 1) % 2 ^ 16 } st.store },
       [RouterCommand.SendMessage
          ⟨ch.route, ⟨[RouterAddress.from_address ch.as_ciphertext_address]⟩, .Payload,
           encodeU16LE ch.nonce ++ ct⟩],
       .ok⟩ := by
    unfold ChannelManager.handle_send
    rw [show (⟨⟨a0 :: rest⟩, rr, .Payload, body⟩ : Message).onward_route.addresses
          = a0 :: rest from rfl]
    simp [hlkp, hstore, hcomp, hcke, henc, haead]
  have hz : (ch.nonce + 1) % 2 ^ 16 = 0 := by rw [hmax]; decide
  rw [hsend, hz]
  exact ⟨rfl, storeLookup_storeUpdate_self _ _ _ (by rw [hstore]; rfl)⟩

/-- The channel at the top of its nonce range. -/
def chC4 : Channel := { chDone with nonce := 2 ^ 16 - 1 }

/-- Manager owning `chC4`. -/
def stC4 : ChannelManager := { stW with store := [(0, chC4)] }

/-- Claim C4 witness: a successful send at nonce `2^16 - 1` returns
`Ok` and leaves the counter at 0. -/
theorem nonce_overflow_wraps_witness :
    (ChannelManager.handle_send envW stC4 msgSend).outcome = .ok ∧
    storeLookup 0 (ChannelManager.handle_send envW stC4 msgSend).state.store =
      some { chC4 with nonce := 0 } :=
  nonce_overflow_wraps envW stC4
    ⟨.Channel, .channelAddress (u32le 2)⟩ [] ⟨[]⟩ [1, 2, 3] 0 chC4 ckeW
    [1, 2, 3] [1, 2, 3, 7] rfl rfl rfl rfl rfl rfl rfl

/-- Claim C4 counterexample: the concrete send at nonce `2^16 - 1`
does not raise a fatal channel error — the full result is `Ok` with
one emission and the counter wrapped back to 0. -/
theorem nonce_overflow_counterexample :
    ChannelManager.handle_send envW stC4 msgSend =
      ⟨{ stC4 with store := [(0, { chC4 with nonce := 0 })] },
       [RouterCommand.SendMessage
          ⟨⟨[]⟩, ⟨[⟨.Channel, .channelAddress (u32le 2)⟩]⟩, .Payload,
           [255, 255, 1, 2, 3, 7]⟩],
       .ok⟩ := by
  rfl

/-! ## C8: channel installed under both addresses -/

/-- Claim C8 (amended): in either role, `create_channel` installs the
fresh channel under the rendered forms of both its random 32-bit
identifiers, and both keys resolve to the same `Channel` instance; the
two keys are distinct — so the table gains exactly two keys — whenever
the two random identifiers differ, but when the random draws collide
the two renderings coincide and only one table key results. -/
theorem create_channel_two_keys (env : Env) (st : ChannelManager) (role : ExchangerRole)
    (clear cipher : Nat)
    (h1 : clear < 2 ^ 32) (h2 : cipher < 2 ^ 32) (hne : clear ≠ cipher) :
    ChannelManager.create_channel env role clear cipher st =
      some
        ({ st with
            channels :=
              mapInsert (bytesToHexKey (u32le cipher)) st.next_id
                (mapInsert (bytesToHexKey (u32le clear)) st.next_id st.channels)
            store := (st.next_id,
              Channel.new clear cipher
                (match role with
                 | .Initiator => env.kex.initiator st.init_key_ctx
                 | .Responder => env.kex.responder st.resp_key_ctx)) :: st.store
            next_id := st.next_id + 1 },
         u32le clear, u32le cipher) ∧
    bytesToHexKey (u32le clear) ≠ bytesToHexKey (u32le cipher) ∧
    mapLookup (bytesToHexKey (u32le clear))
        (mapInsert (bytesToHexKey (u32le cipher)) st.next_id
          (mapInsert (bytesToHexKey (u32le clear)) st.next_id st.channels)) =
      some st.next_id ∧
    mapLookup (bytesToHexKey (u32le cipher))
        (mapInsert (bytesToHexKey (u32le cipher)) st.next_id
          (mapInsert (bytesToHexKey (u32le clear)) st.next_id st.channels)) =
      some st.next_id ∧
    storeLookup st.next_id
        ((st.next_id,
          Channel.new clear cipher
            (match role with
             | .Initiator => env.kex.initiator st.init_key_ctx
             | .Responder => env.kex.responder st.resp_key_ctx)) :: st.store) =
      some (Channel.new clear cipher
        (match role with
         | .Initiator => env.kex.initiator st.init_key_ctx
         | .Responder => env.kex.responder st.resp_key_ctx)) := by
  have hkey : bytesToHexKey (u32le clear) ≠ bytesToHexKey (u32le cipher) :=
    fun hk => hne (u32le_hexKey_inj clear cipher h1 h2 hk)
  refine ⟨?_, hkey, ?_, ?_, ?_⟩
  · cases role <;> rfl
  · rw [mapLookup_mapInsert_ne _ _ _ _ hkey, mapLookup_mapInsert_self]
  · rw [mapLookup_mapInsert_self]
  · simp [storeLookup]

/-- Claim C8 witness: with distinct random identifiers 1 and 2 drawn
into an empty manager, in the Initiator role and in the Responder role
alike, the channel is found under both rendered keys, which are
distinct, and both resolve to the same instance. -/
theorem create_channel_two_keys_witness :
    (ChannelManager.create_channel envW .Initiator 1 2 ⟨[], [], 0, none, none⟩ =
      some
        ({ (⟨[], [], 0, none, none⟩ : ChannelManager) with
            channels :=
              mapInsert (bytesToHexKey (u32le 2)) 0
                (mapInsert (bytesToHexKey (u32le 1)) 0 [])
            store := [(0, Channel.new 1 2 (envW.kex.initiator none))]
            next_id := 1 },
         u32le 1, u32le 2) ∧
    bytesToHexKey (u32le 1) ≠ bytesToHexKey (u32le 2) ∧
    mapLookup (bytesToHexKey (u32le 1))
        (mapInsert (bytesToHexKey (u32le 2)) 0
          (mapInsert (bytesToHexKey (u32le 1)) 0 [])) = some 0 ∧
    mapLookup (bytesToHexKey (u32le 2))
        (mapInsert (bytesToHexKey (u32le 2)) 0
          (mapInsert (bytesToHexKey (u32le 1)) 0 [])) = some 0 ∧
    storeLookup 0 [(0, Channel.new 1 2 (envW.kex.initiator none))] =
      some (Channel.new 1 2 (envW.kex.initiator none))) ∧
    (ChannelManager.create_channel envW .Responder 1 2 ⟨[], [], 0, none, none⟩ =
      some
        ({ (⟨[], [], 0, none, none⟩ : ChannelManager) with
            channels :=
              mapInsert (bytesToHexKey (u32le 2)) 0
                (mapInsert (bytesToHexKey (u32le 1)) 0 [])
            store := [(0, Channel.new 1 2 (envW.kex.responder none))]
            next_id := 1 },
         u32le 1, u32le 2) ∧
    bytesToHexKey (u32le 1) ≠ bytesToHexKey (u32le 2) ∧
    mapLookup (bytesToHexKey (u32le 1))
        (mapInsert (bytesToHexKey (u32le 2)) 0
          (mapInsert (bytesToHexKey (u32le 1)) 0 [])) = some 0 ∧
    mapLookup (bytesToHexKey (u32le 2))
        (mapInsert (bytesToHexKey (u32le 2)) 0
          (mapInsert (bytesToHexKey (u32le 1)) 0 [])) = some 0 ∧
    storeLookup 0 [(0, Channel.new 1 2 (envW.kex.responder none))] =
      some (Channel.new 1 2 (envW.kex.responder none))) :=
  ⟨create_channel_two_keys envW ⟨[], [], 0, none, none⟩ .Initiator 1 2
      (by decide) (by decide) (by decide),
   create_channel_two_keys envW ⟨[], [], 0, none, none⟩ .Responder 1 2
      (by decide) (by decide) (by decide)⟩

/-- Claim C8 counterexample: when the two fresh random identifiers
collide (both 0), the two rendered keys coincide and the channel is
installed under exactly one table key, not two — in the Initiator role
and in the Responder role alike. -/
theorem create_channel_collision_counterexample :
    ChannelManager.create_channel envW .Initiator 0 0 ⟨[], [], 0, none, none⟩ =
      some (⟨[(CHANNEL_ZERO, 0)], [(0, Channel.new 0 0 0)], 1, none, none⟩,
            [0, 0, 0, 0], [0, 0, 0, 0]) ∧
    ChannelManager.create_channel envW .Responder 0 0 ⟨[], [], 0, none, none⟩ =
      some (⟨[(CHANNEL_ZERO, 0)], [(0, Channel.new 0 0 0)], 1, none, none⟩,
            [0, 0, 0, 0], [0, 0, 0, 0]) ∧
    ([(CHANNEL_ZERO, 0)] : List (List Nat × Nat)).length = 1 := by
  refine ⟨rfl, rfl, rfl⟩

end Ockam
